import Mathlib

/-!
Shallow embedding of the FastAPI gateway in `src/api/search.py`
(repository lethanhson9901/perplexity-ai, "Gateway-C" in the spec).

The external search client (`perplexity_async.Client`) is out of scope for
the repository; handlers are parameterised by an oracle describing the
outcome of each external call, and every handler additionally returns the
trace of external-client events it performed, so that "the external client
is never invoked" is expressible as an empty trace.

Helpers from `perplexity.utils` / `perplexity.config`
(`validate_search_params`, `validate_file_data`, `sanitize_query`, the
mode/source/model tables) are part of the repository but not present under
`src/`; they are modelled from the spec and marked as such.

`json.loads` (Python stdlib) is modelled as an explicit parse-function
parameter `String → Except String JsonVal`.
-/

namespace PplxApi

/-- A JSON value, as produced by Python `json.loads` on the request /
environment payloads handled by the gateway (numbers restricted to
integers, which suffices for every claim). -/
inductive JsonVal where
  | null : JsonVal
  | bool (b : Bool) : JsonVal
  | num (n : Int) : JsonVal
  | str (s : String) : JsonVal
  | arr (xs : List JsonVal) : JsonVal
  | obj (fields : List (String × JsonVal)) : JsonVal

/-- Python truthiness of a JSON value (`None`, `False`, `0`, `""`, `[]`,
and the empty dict are falsy). -/
def pyTruthy : JsonVal → Bool
  | .null => false
  | .bool b => b
  | .num n => n != 0
  | .str s => s ≠ ""
  | .arr xs => !xs.isEmpty
  | .obj fields => !fields.isEmpty

/-- JSON string escaping as in Python `json.dumps` (the common escapes;
other control characters do not occur in the payloads modelled here). -/
def jsonEscapeChar (c : Char) : String :=
  if c = '"' then "\\\""
  else if c = '\\' then "\\\\"
  else if c = '\n' then "\\n"
  else if c = '\t' then "\\t"
  else if c = '\r' then "\\r"
  else String.singleton c

def jsonEscape (s : String) : String :=
  String.join (s.toList.map jsonEscapeChar)

mutual

/-- `json.dumps` with default separators, mirrored for our JSON values. -/
def dumps : JsonVal → String
  | .null => "null"
  | .bool true => "true"
  | .bool false => "false"
  | .num n => toString n
  | .str s => "\"" ++ jsonEscape s ++ "\""
  | .arr xs => "[" ++ dumpsList xs ++ "]"
  | .obj fields => "\x7b" ++ dumpsFields fields ++ "\x7d"

def dumpsList : List JsonVal → String
  | [] => ""
  | [x] => dumps x
  | x :: y :: rest => dumps x ++ ", " ++ dumpsList (y :: rest)

def dumpsFields : List (String × JsonVal) → String
  | [] => ""
  | [(k, v)] => "\"" ++ jsonEscape k ++ "\": " ++ dumps v
  | (k, v) :: p :: rest =>
      "\"" ++ jsonEscape k ++ "\": " ++ dumps v ++ ", " ++ dumpsFields (p :: rest)

end

mutual

/-- Python `repr` of a parsed-JSON value, used inside `str` of containers. -/
def pyRepr : JsonVal → String
  | .null => "None"
  | .bool true => "True"
  | .bool false => "False"
  | .num n => toString n
  | .str s => "\x27" ++ s ++ "\x27"
  | .arr xs => "[" ++ pyReprList xs ++ "]"
  | .obj fields => "\x7b" ++ pyReprFields fields ++ "\x7d"

def pyReprList : List JsonVal → String
  | [] => ""
  | [x] => pyRepr x
  | x :: y :: rest => pyRepr x ++ ", " ++ pyReprList (y :: rest)

def pyReprFields : List (String × JsonVal) → String
  | [] => ""
  | [(k, v)] => "\x27" ++ k ++ "\x27: " ++ pyRepr v
  | (k, v) :: p :: rest =>
      "\x27" ++ k ++ "\x27: " ++ pyRepr v ++ ", " ++ pyReprFields (p :: rest)

end

/-- Python `str` of a parsed-JSON value (`str` of a string is the string
itself; containers fall back to `repr`). -/
def pyStr : JsonVal → String
  | .str s => s
  | v => pyRepr v

/-- A cookie mapping (`Dict[str, str]` in the source), in insertion order. -/
abbrev Cookies := List (String × String)

/-- An `HTTPException` as raised by the handlers: status code plus detail. -/
structure HTTPErr where
  statusCode : Nat
  detail : String
deriving DecidableEq

/-- A file value forwarded to the external client: request-body files are
strings, multipart uploads are raw bytes; `other` stands for any
unsupported content shape (spec §3, FileEntry invariant). -/
inductive FileValue where
  | str (s : String) : FileValue
  | bytes (data : String) : FileValue
  | other (tag : String) : FileValue
deriving DecidableEq

abbrev Files := List (String × FileValue)

/-! ### Tables and validators from `perplexity.config` / `perplexity.utils`

These live in the repository outside `src/`; they are modelled from the
spec (§3 invariants and §4.1 Gateway-C rule): closed enumerated tables for
modes and sources, a per-mode table of allowed models, and validators that
fail with a human-readable message naming the invalid value. -/

/-- Modelled from the spec: `SEARCH_MODES`, the closed enumerated table of
search modes (`perplexity.config`; the table contents are representative —
the spec fixes only that the table is closed, with default "auto"). -/
def SEARCH_MODES : List String := ["auto", "pro", "reasoning", "deep research"]

/-- Modelled from the spec: `SEARCH_SOURCES`, the closed enumerated table
of source tags (default `["web"]`). -/
def SEARCH_SOURCES : List String := ["web", "scholar", "social"]

/-- Modelled from the spec: `MODEL_MAPPINGS`, the per-mode table of allowed
models ("model, if given, must belong to the mode's allowed set"). -/
def MODEL_MAPPINGS : String → List String
  | "auto" => ["turbo"]
  | "pro" => ["sonar", "gpt-5", "claude-sonnet-4-5", "gemini-2-5-pro", "grok-4"]
  | "reasoning" => ["o3", "claude-sonnet-4-5-thinking"]
  | "deep research" => ["pplx_alpha"]
  | _ => []

/-- Modelled from the spec: `validate_search_params` from
`perplexity.utils` — `mode`/`model`/`sources` are validated against the
closed enumerated tables, failing with a message naming the invalid
value. The spec does not constrain the `own_account` flag beyond its being
passed through, so it does not affect the modelled outcome. -/
def validate_search_params (mode : String) (model : Option String)
    (sources : List String) (own_account : Bool) : Except String Unit :=
  if ¬ SEARCH_MODES.contains mode then
    .error ("Invalid mode: " ++ mode)
  else
    match sources.find? (fun s => ¬ SEARCH_SOURCES.contains s) with
    | some s => .error ("Invalid source: " ++ s)
    | none =>
      if sources.isEmpty then
        .error "Sources must be a non-empty list"
      else
        match model with
        | none => .ok ()
        | some m =>
          if (MODEL_MAPPINGS mode).contains m then .ok ()
          else .error ("Invalid model: " ++ m)

/-- Modelled from the spec: `validate_file_data` from `perplexity.utils` —
a value-checking routine over the file mapping; content that is neither a
string nor a byte sequence is rejected with an error naming the filename
(spec §3, FileEntry invariant). -/
def validate_file_data (files : Files) : Except String Unit :=
  match files.find? (fun p => match p.2 with | .other _ => true | _ => false) with
  | some p => .error ("Invalid file content for: " ++ p.1)
  | none => .ok ()

/-- Python `str.strip()` on the underlying character list. -/
def stripChars (cs : List Char) : List Char :=
  ((cs.dropWhile Char.isWhitespace).reverse.dropWhile Char.isWhitespace).reverse

/-- Python `str.strip()`. -/
def pyStrip (s : String) : String := String.mk (stripChars s.data)

/-- Modelled from the spec: `sanitize_query` from `perplexity.utils` — the
query is sanitized (trimmed/normalized) before forwarding; an empty query
violates the §3 invariant ("query must be non-empty string"). -/
def sanitize_query (query : String) : Except String String :=
  let cleaned := pyStrip query
  if cleaned = "" then .error "Query must be a non-empty string"
  else .ok cleaned

/-! ### Environment loading (module import time) -/

/-- `_load_json_env`: read an environment value, require it to be a JSON
object, and stringify keys and values (`{str(k): str(v) for k, v in
parsed.items()}`). `jsonLoads` models Python `json.loads`; a `.error` is a
`JSONDecodeError` carrying the exception text. An unset or empty variable
yields the empty mapping. -/
def _load_json_env (jsonLoads : String → Except String JsonVal)
    (name : String) (raw : Option String) : Except String Cookies :=
  match raw with
  | none => .ok []
  | some r =>
    if r = "" then .ok []
    else
      match jsonLoads r with
      | .error exc => .error (name ++ " must be valid JSON: " ++ exc)
      | .ok (.obj fields) => .ok (fields.map (fun p => (p.1, pyStr p.2)))
      | .ok _ => .error (name ++ " must be a JSON object of cookies")

/-- The process environment variables the module reads. -/
structure Env where
  pplx_cookies : Option String
  emailnator_cookies : Option String
  pplx_api_key : Option String

/-- The module-level state established at import time:
`ENV_COOKIES_ERROR`, `DEFAULT_COOKIES`, `EMAILNATOR_COOKIES`, `API_KEY`. -/
structure AppState where
  ENV_COOKIES_ERROR : Option String
  DEFAULT_COOKIES : Cookies
  EMAILNATOR_COOKIES : Cookies
  API_KEY : Option String

/-- Module import: `DEFAULT_COOKIES` is loaded from `PPLX_COOKIES`, the
`RuntimeError` being captured into `ENV_COOKIES_ERROR` instead of
propagating; `EMAILNATOR_COOKIES` falls back to the empty mapping on
error; `API_KEY` is read as-is. -/
def moduleInit (jsonLoads : String → Except String JsonVal) (env : Env) : AppState :=
  let pplx := _load_json_env jsonLoads "PPLX_COOKIES" env.pplx_cookies
  let emailnator := _load_json_env jsonLoads "EMAILNATOR_COOKIES" env.emailnator_cookies
  { ENV_COOKIES_ERROR := match pplx with | .ok _ => none | .error msg => some msg
    DEFAULT_COOKIES := match pplx with | .ok c => c | .error _ => []
    EMAILNATOR_COOKIES := match emailnator with | .ok c => c | .error _ => []
    API_KEY := env.pplx_api_key }

/-! ### Authentication (`require_api_key`) -/

/-- The characters after the first space, if any. -/
def charsAfterFirstSpace : List Char → Option (List Char)
  | [] => none
  | c :: rest => if c = ' ' then some rest else charsAfterFirstSpace rest

/-- The part of a string after its first space: Python
`s.split(" ", 1)[1]` (empty when there is no space; the caller only uses
it under a `"bearer "`-prefix guard, which guarantees a space). -/
def afterFirstSpace (s : String) : String :=
  match charsAfterFirstSpace s.data with
  | some rest => String.mk rest
  | none => ""

/-- Python `str.lower()` (ASCII case mapping, which covers the header
values exercised here). -/
def strToLower (s : String) : String := String.mk (s.data.map Char.toLower)

/-- The bearer token extracted from the `Authorization` header:
`authorization.split(" ", 1)[1]` when
`authorization.lower().startswith("bearer ")`, else `None`. -/
def bearer_token (authorization : Option String) : Option String :=
  match authorization with
  | none => none
  | some a =>
    if "bearer ".data.isPrefixOf (strToLower a).data then some (afterFirstSpace a)
    else none

/-- `supplied = x_api_key or bearer_token`: Python `or`, so an empty
`x-api-key` header falls through to the bearer token. -/
def suppliedCredential (x_api_key authorization : Option String) : Option String :=
  match x_api_key with
  | some s => if s = "" then bearer_token authorization else some s
  | none => bearer_token authorization

/-- `require_api_key` (src/api/search.py lines 74–90): 500 when the server
secret is unset or empty (`if not API_KEY`), else 401 unless the supplied
credential equals the secret. -/
def require_api_key (api_key : Option String)
    (x_api_key authorization : Option String) : Except HTTPErr Unit :=
  match api_key with
  | none => .error ⟨500, "PPLX_API_KEY is not configured on the server."⟩
  | some key =>
    if key = "" then
      .error ⟨500, "PPLX_API_KEY is not configured on the server."⟩
    else if suppliedCredential x_api_key authorization = some key then
      .ok ()
    else
      .error ⟨401, "Invalid API key."⟩

/-! ### Cookie resolution and optional-JSON form fields -/

/-- `_resolve_cookies` (lines 93–101): a truthy override wins; otherwise a
captured environment-cookie error surfaces as HTTP 500; otherwise the
environment defaults are used. Python `if override:` is false for both
`None` and the empty dict. -/
def _resolve_cookies (st : AppState) (override : Option Cookies) : Except HTTPErr Cookies :=
  match override with
  | some c =>
    if c.isEmpty then
      match st.ENV_COOKIES_ERROR with
      | some msg => .error ⟨500, msg⟩
      | none => .ok st.DEFAULT_COOKIES
    else .ok c
  | none =>
    match st.ENV_COOKIES_ERROR with
    | some msg => .error ⟨500, msg⟩
    | none => .ok st.DEFAULT_COOKIES

/-- `_parse_optional_json` (lines 104–113): `None` passes through; a
decode failure maps to HTTP 422 naming the field. -/
def _parse_optional_json (jsonLoads : String → Except String JsonVal)
    (raw : Option String) (field_name : String) : Except HTTPErr (Option JsonVal) :=
  match raw with
  | none => .ok none
  | some r =>
    match jsonLoads r with
    | .ok v => .ok (some v)
    | .error exc =>
      .error ⟨422, "Field \x27" ++ field_name ++ "\x27 must be valid JSON: " ++ exc⟩

/-! ### The pydantic request models -/

/-- `SearchRequest` (lines 46–58), after pydantic validation. -/
structure SearchRequest where
  query : String
  mode : String := "auto"
  model : Option String := none
  sources : List String := ["web"]
  files : Option (List (String × String)) := none
  language : String := "en-US"
  follow_up : Option (List (String × JsonVal)) := none
  incognito : Bool := false
  stream : Bool := false
  cookies : Option Cookies := none

/-- `AccountCreateRequest` (lines 61–64), after pydantic validation. -/
structure AccountCreateRequest where
  emailnator_cookies : Option Cookies := none

/-- The field names `SearchRequest` accepts (`extra="forbid"`). -/
def searchRequestFieldNames : List String :=
  ["query", "mode", "model", "sources", "files", "language",
   "follow_up", "incognito", "stream", "cookies"]

/-- Look up a field of a JSON object (first occurrence, as `json.loads`
keeps the last duplicate; duplicate keys do not occur in the modelled
payloads). -/
def getField (fields : List (String × JsonVal)) (name : String) : Option JsonVal :=
  (fields.find? (fun p => p.1 = name)).map (fun p => p.2)

/-- pydantic validation of a required `str` field. -/
def validateStr (name : String) : Option JsonVal → Except String String
  | some (.str s) => .ok s
  | some _ => .error (name ++ ": Input should be a valid string")
  | none => .error (name ++ ": Field required")

/-- pydantic validation of a `str` field with a default. -/
def validateStrDefault (name : String) (dflt : String) :
    Option JsonVal → Except String String
  | none => .ok dflt
  | some (.str s) => .ok s
  | some _ => .error (name ++ ": Input should be a valid string")

/-- pydantic validation of an `Optional[str]` field. -/
def validateOptStr (name : String) : Option JsonVal → Except String (Option String)
  | none => .ok none
  | some .null => .ok none
  | some (.str s) => .ok (some s)
  | some _ => .error (name ++ ": Input should be a valid string")

/-- pydantic (v2, lax mode) validation of a single value against `str`
inside a list: only JSON strings are accepted. -/
def strItem : JsonVal → Option String
  | .str s => some s
  | _ => none

/-- pydantic validation of the `List[str]` field `sources` — a bare string
is NOT coerced to a list (pydantic rejects `str` for sequence fields);
a missing field takes the `default_factory` value `["web"]`. -/
def validateSources : Option JsonVal → Except String (List String)
  | none => .ok ["web"]
  | some (.arr xs) =>
    match (xs.map strItem).allSome with
    | some ss => .ok ss
    | none => .error "sources: Input should be a valid string"
  | some _ => .error "sources: Input should be a valid list"

/-- pydantic validation of an `Optional[Dict[str, str]]` field. -/
def validateOptStrDict (name : String) :
    Option JsonVal → Except String (Option (List (String × String)))
  | none => .ok none
  | some .null => .ok none
  | some (.obj fields) =>
    match (fields.map (fun p => (strItem p.2).map (fun s => (p.1, s)))).allSome with
    | some entries => .ok (some entries)
    | none => .error (name ++ ": Input should be a valid string")
  | some _ => .error (name ++ ": Input should be a valid dictionary")

/-- pydantic validation of the `Optional[Dict[str, Any]]` field
`follow_up`. -/
def validateOptDict : Option JsonVal → Except String (Option (List (String × JsonVal)))
  | none => .ok none
  | some .null => .ok none
  | some (.obj fields) => .ok (some fields)
  | some _ => .error "follow_up: Input should be a valid dictionary"

/-- pydantic (v2, lax mode) validation of a `bool` field: booleans,
0/1 numbers and the usual truthy/falsy strings are accepted. -/
def validateBoolDefault (name : String) (dflt : Bool) :
    Option JsonVal → Except String Bool
  | none => .ok dflt
  | some (.bool b) => .ok b
  | some (.num 0) => .ok false
  | some (.num 1) => .ok true
  | some (.str s) =>
    match strToLower s with
    | "true" => .ok true | "t" => .ok true | "yes" => .ok true
    | "y" => .ok true | "on" => .ok true | "1" => .ok true
    | "false" => .ok false | "f" => .ok false | "no" => .ok false
    | "n" => .ok false | "off" => .ok false | "0" => .ok false
    | _ => .error (name ++ ": Input should be a valid boolean")
  | some _ => .error (name ++ ": Input should be a valid boolean")

/-- pydantic validation of a JSON body against `SearchRequest`
(`extra="forbid"`; the first failing field is reported, FastAPI turning
the failure into an HTTP 422 response). -/
def parseSearchRequest (body : JsonVal) : Except String SearchRequest :=
  match body with
  | .obj fields =>
    match fields.find? (fun p => ¬ searchRequestFieldNames.contains p.1) with
    | some p => .error (p.1 ++ ": Extra inputs are not permitted")
    | none => do
      let query ← validateStr "query" (getField fields "query")
      let mode ← validateStrDefault "mode" "auto" (getField fields "mode")
      let model ← validateOptStr "model" (getField fields "model")
      let sources ← validateSources (getField fields "sources")
      let files ← validateOptStrDict "files" (getField fields "files")
      let language ← validateStrDefault "language" "en-US" (getField fields "language")
      let follow_up ← validateOptDict (getField fields "follow_up")
      let incognito ← validateBoolDefault "incognito" false (getField fields "incognito")
      let stream ← validateBoolDefault "stream" false (getField fields "stream")
      let cookies ← validateOptStrDict "cookies" (getField fields "cookies")
      .ok { query, mode, model, sources, files, language,
            follow_up, incognito, stream, cookies }
  | _ => .error "body: Input should be a valid dictionary"

/-! ### The external search client, as an oracle plus an event trace -/

/-- The arguments the gateway passes to `client.search(...)` (minus the
`stream` flag, which selects between the two call sites). -/
structure SearchArgs where
  query : String
  mode : String
  model : Option String
  sources : List String
  files : Files
  language : String
  follow_up : Option (List (String × JsonVal))
  incognito : Bool

/-- The outcome of one `client.search(...)` call: a complete result, an
async-iterable of chunks, an `AssertionError`, or any other exception. -/
inductive ClientOutcome where
  | ok (result : JsonVal) : ClientOutcome
  | okStream (chunks : List JsonVal) : ClientOutcome
  | assertErr (msg : String) : ClientOutcome
  | otherErr (msg : String) : ClientOutcome

/-- An observable interaction with the external client library. -/
inductive ClientEvent where
  | construct (cookies : Cookies) : ClientEvent
  | search (stream : Bool) (args : SearchArgs) : ClientEvent
  | create_account (cookies : Cookies) : ClientEvent

/-- The behaviour of `client.search` for this request, supplied by the
environment: the first argument is the `stream` flag of the call. -/
def ClientOracle := Bool → SearchArgs → ClientOutcome

/-- The behaviour of `client.create_account` plus the session state read
on success (`session.cookies.get_dict()`, `client.copilot`,
`client.file_upload`). -/
inductive AccountOutcome where
  | ok (session_cookies : Cookies) (copilot : Bool) (file_upload : Bool) : AccountOutcome
  | err (msg : String) : AccountOutcome

def AccountOracle := Cookies → AccountOutcome

/-! ### `_run_search` and the response relay -/

/-- What a route handler ultimately sends: a JSON response with a status
code, a streamed (newline-delimited) body, or an `HTTPException`. -/
inductive HandlerResult where
  | json (statusCode : Nat) (body : JsonVal) : HandlerResult
  | stream (lines : List String) : HandlerResult
  | error (e : HTTPErr) : HandlerResult

/-- The body of `StreamingResponse` (lines 144–148): the async generator
yields `json.dumps(chunk) + "\n"` for each chunk the external client
yields, in order, and then simply terminates. -/
def stream_response : List JsonVal → List String
  | [] => []
  | chunk :: rest => (dumps chunk ++ "\n") :: stream_response rest

/-- What `_run_search` can produce: a complete `{"data": ...}` payload or
a streaming body. -/
inductive RunOut where
  | data (v : JsonVal) : RunOut
  | streamed (lines : List String) : RunOut

/-- An exception escaping `_run_search`: an `HTTPException` (validation,
422), an `AssertionError`, or any other exception from the client call. -/
inductive RunExc where
  | http (e : HTTPErr) : RunExc
  | assertE (msg : String) : RunExc
  | otherE (msg : String) : RunExc

/-- The `try` block at the top of `_run_search` (lines 121–127):
parameter validation, file validation when files are present, then query
sanitisation, any `ValidationError` carrying its message out. -/
def runSearchValidation (request : SearchRequest) (files : Files)
    (own_account : Bool) : Except String String := do
  validate_search_params request.mode request.model request.sources own_account
  if !files.isEmpty then validate_file_data files else pure ()
  sanitize_query request.query

/-- `_run_search` (lines 116–162): validate against the enumerated
tables (422 on `ValidationError`), then construct the client and invoke
`client.search`. An oracle outcome whose shape does not match the
`stream` flag models a client returning the wrong type, which surfaces as
a generic runtime error (the handlers' final `except Exception`). -/
def _run_search (oracle : ClientOracle) (request : SearchRequest)
    (files : Files) (cookies : Cookies) :
    Except RunExc RunOut × List ClientEvent :=
  match runSearchValidation request files (!cookies.isEmpty) with
  | .error msg => (.error (.http ⟨422, msg⟩), [])
  | .ok clean_query =>
    let args : SearchArgs :=
      { query := clean_query, mode := request.mode, model := request.model,
        sources := request.sources, files := files, language := request.language,
        follow_up := request.follow_up, incognito := request.incognito }
    let events := [ClientEvent.construct cookies, ClientEvent.search request.stream args]
    if request.stream then
      match oracle true args with
      | .okStream chunks => (.ok (.streamed (stream_response chunks)), events)
      | .ok _ => (.error (.otherE "TypeError: object is not an async iterable"), events)
      | .assertErr m => (.error (.assertE m), events)
      | .otherErr m => (.error (.otherE m), events)
    else
      match oracle false args with
      | .ok v => (.ok (.data v), events)
      | .okStream _ => (.error (.otherE "TypeError: object is not JSON serializable"), events)
      | .assertErr m => (.error (.assertE m), events)
      | .otherErr m => (.error (.otherE m), events)

/-! ### Route handlers -/

/-- The shared exception mapping of the `/v1/search` and
`/v1/search/upload` handler bodies (lines 179–193 and 227–241):
`AssertionError` → 400, `HTTPException` re-raised, anything else → 500
"Search failed: ...", and a successful dict result wrapped as a 200
`JSONResponse`. -/
def relayRunResult : Except RunExc RunOut × List ClientEvent → HandlerResult × List ClientEvent
  | (.ok (.data v), tr) => (.json 200 v, tr)
  | (.ok (.streamed ls), tr) => (.stream ls, tr)
  | (.error (.http e), tr) => (.error e, tr)
  | (.error (.assertE m), tr) => (.error ⟨400, m⟩, tr)
  | (.error (.otherE m), tr) => (.error ⟨500, "Search failed: " ++ m⟩, tr)

/-- The `/v1/search` handler body `search` (lines 175–193), after body
validation: resolve cookies, default `files` to the empty mapping, run the
search, relay the result. -/
def search_endpoint (st : AppState) (oracle : ClientOracle)
    (request : SearchRequest) : HandlerResult × List ClientEvent :=
  match _resolve_cookies st request.cookies with
  | .error e => (.error e, [])
  | .ok cookies =>
    let files : Files := (request.files.getD []).map (fun p => (p.1, FileValue.str p.2))
    match _run_search oracle request files cookies with
    | (.ok (.data v), tr) => (.json 200 (.obj [("data", v)]), tr)
    | (.ok (.streamed ls), tr) => (.stream ls, tr)
    | (.error (.http e), tr) => (.error e, tr)
    | (.error (.assertE m), tr) => (.error ⟨400, m⟩, tr)
    | (.error (.otherE m), tr) => (.error ⟨500, "Search failed: " ++ m⟩, tr)

/-- The multipart form fields of `/v1/search/upload` (lines 197–207), as
bound by the framework (strings and booleans already coerced; `files` is
the list of `(filename, content-bytes)` pairs in part order). -/
structure UploadForm where
  query : String
  mode : String := "auto"
  model : Option String := none
  sources : Option String := none
  language : String := "en-US"
  incognito : Bool := false
  stream : Bool := false
  follow_up : Option String := none
  cookies : Option String := none
  files : List (String × String) := []

/-- Python dict insertion: overwrite in place or append. -/
def dictInsert (m : List (String × String)) (k v : String) : List (String × String) :=
  if m.any (fun p => p.1 = k) then
    m.map (fun p => if p.1 = k then (k, v) else p)
  else m ++ [(k, v)]

/-- `upload_map[upload.filename] = await upload.read()` over the parts. -/
def buildUploadMap (parts : List (String × String)) : List (String × String) :=
  parts.foldl (fun m p => dictInsert m p.1 p.2) []

/-- The `SearchRequest(...)` construction inside `search_with_upload`
(lines 209–219): `sources` is the parsed JSON value if truthy else
`["web"]` (Python `or`), and the constructor re-runs pydantic validation
on `sources`/`follow_up`/`cookies`. -/
def buildUploadRequest (form : UploadForm) (sourcesJson followJson cookiesJson : Option JsonVal) :
    Except String SearchRequest := do
  let sourcesVal : JsonVal :=
    match sourcesJson with
    | some v => if pyTruthy v then v else .arr [.str "web"]
    | none => .arr [.str "web"]
  let sources ← validateSources (some sourcesVal)
  let follow_up ← validateOptDict followJson
  let cookies ← validateOptStrDict "cookies" cookiesJson
  .ok { query := form.query, mode := form.mode, model := form.model, sources,
        files := none, language := form.language, follow_up,
        incognito := form.incognito, stream := form.stream, cookies }

/-- The `/v1/search/upload` handler body `search_with_upload` (lines
196–241): parse the optional-JSON form fields (422 on bad JSON), rebuild a
`SearchRequest` (an in-handler pydantic failure is an uncaught exception,
surfaced by the framework as a plain 500), read the uploads, resolve
cookies, run the search, relay the result. -/
def upload_endpoint (st : AppState) (oracle : ClientOracle)
    (jsonLoads : String → Except String JsonVal) (form : UploadForm) :
    HandlerResult × List ClientEvent :=
  match _parse_optional_json jsonLoads form.sources "sources" with
  | .error e => (.error e, [])
  | .ok sourcesJson =>
    match _parse_optional_json jsonLoads form.follow_up "follow_up" with
    | .error e => (.error e, [])
    | .ok followJson =>
      match _parse_optional_json jsonLoads form.cookies "cookies" with
      | .error e => (.error e, [])
      | .ok cookiesJson =>
        match buildUploadRequest form sourcesJson followJson cookiesJson with
        | .error _ => (.error ⟨500, "Internal Server Error"⟩, [])
        | .ok request =>
          let upload_map := buildUploadMap form.files
          match _resolve_cookies st request.cookies with
          | .error e => (.error e, [])
          | .ok resolved =>
            let files : Files := upload_map.map (fun p => (p.1, FileValue.bytes p.2))
            relayRunResult (_run_search oracle request files resolved)

/-- The `/v1/account` handler body `create_account` (lines 244–263):
request cookies or the environment default (Python `or`); empty is a 400
before any client interaction; otherwise construct a client with empty
cookies, call `create_account`, and report the session cookie set plus the
two capability flags; any failure maps to 500. -/
def account_endpoint (st : AppState) (acct : AccountOracle)
    (request : AccountCreateRequest) : HandlerResult × List ClientEvent :=
  let cookies : Cookies :=
    match request.emailnator_cookies with
    | some c => if c.isEmpty then st.EMAILNATOR_COOKIES else c
    | none => st.EMAILNATOR_COOKIES
  if cookies.isEmpty then
    (.error ⟨400, "Emailnator cookies are required (provide in body or EMAILNATOR_COOKIES env)."⟩, [])
  else
    let events := [ClientEvent.construct [], ClientEvent.create_account cookies]
    match acct cookies with
    | .ok session_cookies copilot file_upload =>
      (.json 200 (.obj [("data", .obj
        [("cookies", .obj (session_cookies.map (fun p => (p.1, JsonVal.str p.2)))),
         ("copilot", .bool copilot),
         ("file_upload", .bool file_upload)])]), events)
    | .err m => (.error ⟨500, "Account creation failed: " ++ m⟩, events)

/-- The `/health` handler (lines 165–167). -/
def health_endpoint : HandlerResult := .json 200 (.obj [("status", .str "ok")])

/-- The `/v1/models` handler body `list_models` (lines 170–172): the
static enumerated tables. -/
def list_models_endpoint : HandlerResult :=
  .json 200 (.obj
    [("modes", .arr (SEARCH_MODES.map JsonVal.str)),
     ("sources", .arr (SEARCH_SOURCES.map JsonVal.str)),
     ("models", .obj (SEARCH_MODES.map (fun m => (m, JsonVal.arr ((MODEL_MAPPINGS m).map JsonVal.str)))))])

/-- The `/v1/usage` handler body `usage` (lines 266–273): reports only the
truthiness of the two default cookie sets, plus a constant. -/
def usage_endpoint (st : AppState) : HandlerResult :=
  .json 200 (.obj
    [("has_cookies", .bool (!st.DEFAULT_COOKIES.isEmpty)),
     ("has_emailnator_cookies", .bool (!st.EMAILNATOR_COOKIES.isEmpty)),
     ("auth_mode", .str "api_key")])

/-! ### Full routes: authentication dependency, then body binding, then
the handler body. An auth failure produces the `HTTPException` response
and no external-client events. -/

def route_search (st : AppState) (oracle : ClientOracle)
    (x_api_key authorization : Option String) (body : JsonVal) :
    HandlerResult × List ClientEvent :=
  match require_api_key st.API_KEY x_api_key authorization with
  | .error e => (.error e, [])
  | .ok _ =>
    match parseSearchRequest body with
    | .error msg => (.error ⟨422, msg⟩, [])
    | .ok request => search_endpoint st oracle request

def route_upload (st : AppState) (oracle : ClientOracle)
    (jsonLoads : String → Except String JsonVal)
    (x_api_key authorization : Option String) (form : UploadForm) :
    HandlerResult × List ClientEvent :=
  match require_api_key st.API_KEY x_api_key authorization with
  | .error e => (.error e, [])
  | .ok _ => upload_endpoint st oracle jsonLoads form

def route_account (st : AppState) (acct : AccountOracle)
    (x_api_key authorization : Option String) (request : AccountCreateRequest) :
    HandlerResult × List ClientEvent :=
  match require_api_key st.API_KEY x_api_key authorization with
  | .error e => (.error e, [])
  | .ok _ => account_endpoint st acct request

def route_models (st : AppState) (x_api_key authorization : Option String) :
    HandlerResult × List ClientEvent :=
  match require_api_key st.API_KEY x_api_key authorization with
  | .error e => (.error e, [])
  | .ok _ => (list_models_endpoint, [])

def route_usage (st : AppState) (x_api_key authorization : Option String) :
    HandlerResult × List ClientEvent :=
  match require_api_key st.API_KEY x_api_key authorization with
  | .error e => (.error e, [])
  | .ok _ => (usage_endpoint st, [])

def route_health : HandlerResult × List ClientEvent := (health_endpoint, [])

/-! ### Claim-side definitions -/

/-- The supplied credential exactly as claim C1 words it — "the x-api-key
header if present, otherwise the token following a `'Bearer '` prefix in
the Authorization header" — to be compared with the code's
`suppliedCredential`. -/
def claimSuppliedCredential (x_api_key authorization : Option String) : Option String :=
  match x_api_key with
  | some s => some s
  | none =>
    match authorization with
    | none => none
    | some a =>
      if "Bearer ".data.isPrefixOf a.data then some (afterFirstSpace a) else none

/-- The message `_load_json_env` produces for a bad `PPLX_COOKIES` value:
the decode-error text for malformed JSON, the object-shape text
otherwise. -/
def envCookiesMessage (jsonLoads : String → Except String JsonVal) (raw : String) : String :=
  match jsonLoads raw with
  | .error exc => "PPLX_COOKIES must be valid JSON: " ++ exc
  | .ok _ => "PPLX_COOKIES must be a JSON object of cookies"

/-! ## Theorems -/

/-- Helper: the streaming body is exactly the chunk list, each chunk
serialized independently and newline-terminated, in order. -/
theorem stream_response_eq_map (chunks : List JsonVal) :
    stream_response chunks = chunks.map (fun c => dumps c ++ "\n") := by
  induction chunks with
  | nil => rfl
  | cons c rest ih => simp [stream_response, ih]

/-- Helper: an empty per-request cookie override resolves exactly like an
absent one. -/
theorem resolve_cookies_empty_eq_none (st : AppState) :
    _resolve_cookies st (some []) = _resolve_cookies st none := rfl

/-- Claim C2 (amended): for every streaming search whose external client
yields chunks `c1..cn` and completes, the delivered body is exactly the
serializations of `c1..cn` in order, one newline-terminated line each,
with nothing duplicated, dropped, reordered — and nothing appended: the
stream is terminated only by ending, with no explicit end-of-stream
marker. -/
theorem c2_streaming_relay :
    (∀ chunks, stream_response chunks = chunks.map (fun c => dumps c ++ "\n")) ∧
    (∀ (st : AppState) (oracle : ClientOracle) (req : SearchRequest)
        (cookies : Cookies) (q : String) (chunks : List JsonVal),
      _resolve_cookies st req.cookies = .ok cookies →
      runSearchValidation req
        ((req.files.getD []).map (fun p => (p.1, FileValue.str p.2)))
        (!cookies.isEmpty) = .ok q →
      req.stream = true →
      (∀ a, oracle true a = .okStream chunks) →
      (search_endpoint st oracle req).1 =
        .stream (chunks.map (fun c => dumps c ++ "\n"))) := by
  refine ⟨stream_response_eq_map, ?_⟩
  intro st oracle req cookies q chunks hres hval hstream horacle
  simp [search_endpoint, hres, _run_search, hval, hstream, horacle,
    stream_response_eq_map]

/-- Claim C2 witness: three chunks are relayed as three serialized lines
in order. -/
theorem c2_streaming_relay_witness :
    (search_endpoint ⟨none, [("k", "v")], [], some "key"⟩
      (fun _ _ => .okStream [.str "c1", .str "c2", .str "c3"])
      { query := "hello", stream := true }).1 =
      .stream ["\"c1\"\n", "\"c2\"\n", "\"c3\"\n"] := by
  exact c2_streaming_relay.2 ⟨none, [("k", "v")], [], some "key"⟩
    (fun _ _ => .okStream [.str "c1", .str "c2", .str "c3"])
    { query := "hello", stream := true }
    [("k", "v")] "hello" [.str "c1", .str "c2", .str "c3"]
    rfl rfl rfl (fun _ => rfl)

/-- Claim C2 counterexample to the claim as stated: a completed
single-chunk stream delivers exactly one line and no additional
end-of-stream marker of any kind follows it. -/
theorem c2_no_end_marker :
    stream_response [JsonVal.null] = ["null\n"] ∧
    ¬ ∃ marker : String,
      stream_response [JsonVal.null] =
        [JsonVal.null].map (fun c => dumps c ++ "\n") ++ [marker] := by
  refine ⟨rfl, ?_⟩
  rintro ⟨marker, h⟩
  simp [stream_response, dumps] at h

/-- Claim C6: a `/v1/account` request with no body cookies (absent or
empty) and an empty environment default is rejected with HTTP 400 before
any external-client interaction (the event trace is empty). -/
theorem c6_account_missing_cookies (st : AppState) (acct : AccountOracle)
    (req : AccountCreateRequest)
    (hreq : req.emailnator_cookies = none ∨ req.emailnator_cookies = some [])
    (henv : st.EMAILNATOR_COOKIES = []) :
    account_endpoint st acct req =
      (.error ⟨400,
        "Emailnator cookies are required (provide in body or EMAILNATOR_COOKIES env)."⟩,
       []) := by
  rcases hreq with h | h <;> simp [account_endpoint, h, henv]

/-- Claim C6 witness. -/
theorem c6_account_missing_cookies_witness :
    account_endpoint ⟨none, [], [], some "key"⟩ (fun _ => .err "x")
      { emailnator_cookies := none } =
      (.error ⟨400,
        "Emailnator cookies are required (provide in body or EMAILNATOR_COOKIES env)."⟩,
       []) :=
  c6_account_missing_cookies _ _ _ (Or.inl rfl) rfl

/-- Claim C9: the `/v1/usage` payload depends only on the emptiness of
the two default cookie sets (two-run noninterference; names and values of
cookies are never revealed). -/
theorem c9_usage_noninterference (st1 st2 : AppState)
    (hdef : st1.DEFAULT_COOKIES.isEmpty = st2.DEFAULT_COOKIES.isEmpty)
    (hem : st1.EMAILNATOR_COOKIES.isEmpty = st2.EMAILNATOR_COOKIES.isEmpty) :
    usage_endpoint st1 = usage_endpoint st2 := by
  simp [usage_endpoint, hdef, hem]

/-- Claim C9 witness: two states with entirely different cookie names,
values, API keys and captured errors, agreeing only on emptiness, give
identical responses. -/
theorem c9_usage_noninterference_witness :
    usage_endpoint ⟨none, [("a", "1")], [("x", "y")], some "k1"⟩ =
      usage_endpoint ⟨some "err", [("b", "2"), ("c", "3")], [("z", "w")], none⟩ :=
  c9_usage_noninterference _ _ rfl rfl

/-- Claim C10: an empty per-request cookies override is treated exactly as
an absent one — the handler behaves identically, the environment defaults
are used, and a deferred environment-cookie error still surfaces as
HTTP 500. -/
theorem c10_empty_cookie_override :
    (∀ st : AppState, _resolve_cookies st (some []) = _resolve_cookies st none) ∧
    (∀ (st : AppState) (oracle : ClientOracle) (req : SearchRequest),
      req.cookies = some [] →
      search_endpoint st oracle req =
        search_endpoint st oracle { req with cookies := none }) ∧
    (∀ (st : AppState) (msg : String), st.ENV_COOKIES_ERROR = some msg →
      _resolve_cookies st (some []) = .error ⟨500, msg⟩) := by
  refine ⟨resolve_cookies_empty_eq_none, ?_, ?_⟩
  · intro st oracle req h
    obtain ⟨q, m, mo, s, f, l, fu, i, sf, ck⟩ := req
    simp only at h
    subst h
    rfl
  · intro st msg h
    simp [_resolve_cookies, h]

/-- Claim C10 witness: with a captured environment-cookie error, an empty
override yields the deferred 500; and a search with an empty override
equals the same search with no override. -/
theorem c10_empty_cookie_override_witness :
    _resolve_cookies ⟨some "PPLX_COOKIES must be valid JSON: boom", [], [], some "k"⟩
      (some []) = .error ⟨500, "PPLX_COOKIES must be valid JSON: boom"⟩ ∧
    search_endpoint ⟨none, [("d", "1")], [], some "k"⟩ (fun _ _ => .ok .null)
      { query := "hi", cookies := some [] } =
      search_endpoint ⟨none, [("d", "1")], [], some "k"⟩ (fun _ _ => .ok .null)
        { query := "hi", cookies := none } :=
  ⟨c10_empty_cookie_override.2.2 _ _ rfl,
   c10_empty_cookie_override.2.1 _ _ { query := "hi", cookies := some [] } rfl⟩

/-- Claim C7 counterexample to the claim as stated: a `/v1/search` body
with `sources: "web"` is not normalized to `["web"]` — pydantic rejects
the bare string, and the route answers 422 without invoking the client. -/
theorem c7_counterexample :
    parseSearchRequest (.obj [("query", .str "q"), ("sources", .str "web")]) =
      .error "sources: Input should be a valid list" ∧
    (¬ ∃ req : SearchRequest,
      parseSearchRequest (.obj [("query", .str "q"), ("sources", .str "web")]) =
        .ok req ∧ req.sources = ["web"]) ∧
    route_search ⟨none, [], [], some "key"⟩ (fun _ _ => .ok .null) (some "key") none
      (.obj [("query", .str "q"), ("sources", .str "web")]) =
      (.error ⟨422, "sources: Input should be a valid list"⟩, []) := by
  refine ⟨rfl, ?_, rfl⟩
  rintro ⟨req, h, -⟩
  rw [show parseSearchRequest (.obj [("query", .str "q"), ("sources", .str "web")]) =
    .error "sources: Input should be a valid list" from rfl] at h
  exact Except.noConfusion h

/-- Claim C7 (amended): Gateway-C does not normalize a bare-string
`sources`: body validation rejects any JSON-string `sources` ("Input
should be a valid list"), only an omitted `sources` defaults to
`["web"]`, and on the upload route a form `sources` parsing to a
non-empty JSON string fails the in-handler model construction (an
uncaught pydantic error, surfaced as a plain 500) with no client call. -/
theorem c7_bare_string_sources :
    (∀ s, validateSources (some (.str s)) =
      .error "sources: Input should be a valid list") ∧
    (∀ q s, parseSearchRequest (.obj [("query", .str q), ("sources", .str s)]) =
      .error "sources: Input should be a valid list") ∧
    (∀ q, parseSearchRequest (.obj [("query", .str q)]) = .ok { query := q }) ∧
    (∀ (st : AppState) (oracle : ClientOracle)
        (jsonLoads : String → Except String JsonVal) (form : UploadForm) (raw s : String),
      form.sources = some raw → form.follow_up = none → form.cookies = none →
      jsonLoads raw = .ok (.str s) → s ≠ "" →
      upload_endpoint st oracle jsonLoads form =
        (.error ⟨500, "Internal Server Error"⟩, [])) := by
  refine ⟨fun s => rfl, fun q s => rfl, fun q => rfl, ?_⟩
  intro st oracle jsonLoads form raw s hsrc hfu hck hjson hs
  simp [upload_endpoint, hsrc, hfu, hck, _parse_optional_json, hjson,
    buildUploadRequest, pyTruthy, hs, validateSources, Bind.bind, Except.bind]

/-- Claim C7 witness for the amended claim (its universally quantified
parts applied at concrete inputs, each hypothesis discharged). -/
theorem c7_bare_string_sources_witness :
    parseSearchRequest (.obj [("query", .str "hi"), ("sources", .str "web")]) =
      .error "sources: Input should be a valid list" ∧
    parseSearchRequest (.obj [("query", .str "hi")]) = .ok { query := "hi" } ∧
    upload_endpoint ⟨none, [], [], some "key"⟩ (fun _ _ => .ok .null)
      (fun r => if r = "wrapped" then .ok (.str "web") else .error "Expecting value")
      { query := "hi", sources := some "wrapped" } =
      (.error ⟨500, "Internal Server Error"⟩, []) := by
  refine ⟨c7_bare_string_sources.2.1 "hi" "web", c7_bare_string_sources.2.2.1 "hi", ?_⟩
  exact c7_bare_string_sources.2.2.2 ⟨none, [], [], some "key"⟩ (fun _ _ => .ok .null)
    (fun r => if r = "wrapped" then .ok (.str "web") else .error "Expecting value")
    { query := "hi", sources := some "wrapped" } "wrapped" "web"
    rfl rfl rfl rfl (by decide)

/-- Claim C1 counterexample to the claim as stated: with secret `"k"`, an
x-api-key header that is present but empty does not become the compared
credential — the code falls back to the bearer token and accepts; and a
lowercase `"bearer "` prefix, which the claim's credential definition does
not recognise, is also accepted. -/
theorem c1_counterexample :
    require_api_key (some "k") (some "") (some "Bearer k") = .ok () ∧
    claimSuppliedCredential (some "") (some "Bearer k") = some "" ∧
    ("" : String) ≠ "k" ∧
    require_api_key (some "k") none (some "bearer k") = .ok () ∧
    claimSuppliedCredential none (some "bearer k") = none :=
  ⟨rfl, rfl, by decide, rfl, rfl⟩

/-- Claim C1 (amended): with a configured non-empty secret, a request
passes authentication iff the supplied credential — the x-api-key header
if present and non-empty, otherwise the token after a case-insensitive
`"bearer "` prefix of the Authorization header — equals the secret
exactly; otherwise the response is HTTP 401; an unset or empty secret
gives HTTP 500 for every credential; and on any authentication failure
every authenticated route returns that error with no external-client
event. -/
theorem c1_authentication :
    (∀ (key : String) (x auth : Option String), key ≠ "" →
      (require_api_key (some key) x auth = .ok () ↔
        suppliedCredential x auth = some key)) ∧
    (∀ (key : String) (x auth : Option String), key ≠ "" →
      suppliedCredential x auth ≠ some key →
      require_api_key (some key) x auth = .error ⟨401, "Invalid API key."⟩) ∧
    (∀ x auth, require_api_key none x auth =
      .error ⟨500, "PPLX_API_KEY is not configured on the server."⟩) ∧
    (∀ x auth, require_api_key (some "") x auth =
      .error ⟨500, "PPLX_API_KEY is not configured on the server."⟩) ∧
    (∀ (st : AppState) (e : HTTPErr) (x auth : Option String),
      require_api_key st.API_KEY x auth = .error e →
      (∀ oracle body, route_search st oracle x auth body = (.error e, [])) ∧
      (∀ oracle jsonLoads form, route_upload st oracle jsonLoads x auth form = (.error e, [])) ∧
      (∀ acct req, route_account st acct x auth req = (.error e, [])) ∧
      route_models st x auth = (.error e, []) ∧
      route_usage st x auth = (.error e, [])) := by
  refine ⟨?_, ?_, fun x auth => rfl, fun x auth => rfl, ?_⟩
  · intro key x auth hkey
    simp only [require_api_key, if_neg hkey]
    constructor
    · intro h
      by_contra hne
      rw [if_neg hne] at h
      exact Except.noConfusion h
    · intro h
      rw [if_pos h]
  · intro key x auth hkey hne
    simp only [require_api_key, if_neg hkey, if_neg hne]
  · intro st e x auth h
    exact ⟨fun oracle body => by simp [route_search, h],
      fun oracle jsonLoads form => by simp [route_upload, h],
      fun acct req => by simp [route_account, h],
      by simp [route_models, h],
      by simp [route_usage, h]⟩

/-- Claim C1 witness: a matching x-api-key passes; a mismatched one gets
401; a server without a configured secret answers 500; and a
failing-auth request to `/v1/usage` and `/v1/search` produces the error
with an empty client trace. -/
theorem c1_authentication_witness :
    require_api_key (some "secret") (some "secret") none = .ok () ∧
    require_api_key (some "secret") (some "wrong") none =
      .error ⟨401, "Invalid API key."⟩ ∧
    require_api_key none (some "secret") none =
      .error ⟨500, "PPLX_API_KEY is not configured on the server."⟩ ∧
    route_usage ⟨none, [], [], some "secret"⟩ (some "wrong") none =
      (.error ⟨401, "Invalid API key."⟩, []) ∧
    route_search ⟨none, [], [], some "secret"⟩ (fun _ _ => .ok .null)
      (some "wrong") none (.obj [("query", .str "q")]) =
      (.error ⟨401, "Invalid API key."⟩, []) := by
  have h := c1_authentication
  have hroutes := h.2.2.2.2 ⟨none, [], [], some "secret"⟩
    ⟨401, "Invalid API key."⟩ (some "wrong") none
    (h.2.1 "secret" (some "wrong") none (by decide) (by decide))
  exact ⟨(h.1 "secret" (some "secret") none (by decide)).mpr rfl,
    h.2.1 "secret" (some "wrong") none (by decide) (by decide),
    h.2.2.1 (some "secret") none,
    hroutes.2.2.2.2,
    hroutes.1 (fun _ _ => .ok .null) (.obj [("query", .str "q")])⟩

/-- Claim C3: a request whose mode/model/sources fail validation against
the enumerated tables gets HTTP 422 carrying the validator's message —
which names the invalid value — and the external client is neither
constructed nor invoked (empty event trace), on both `/v1/search` and
`/v1/search/upload`. -/
theorem c3_validation_maps_to_422 :
    (∀ mode model sources own, ¬ SEARCH_MODES.contains mode →
      validate_search_params mode model sources own =
        .error ("Invalid mode: " ++ mode)) ∧
    (∀ mode model s own, SEARCH_MODES.contains mode →
      ¬ SEARCH_SOURCES.contains s →
      validate_search_params mode model [s] own =
        .error ("Invalid source: " ++ s)) ∧
    (∀ (st : AppState) (oracle : ClientOracle) (req : SearchRequest)
        (cookies : Cookies) (msg : String),
      _resolve_cookies st req.cookies = .ok cookies →
      runSearchValidation req
        ((req.files.getD []).map (fun p => (p.1, FileValue.str p.2)))
        (!cookies.isEmpty) = .error msg →
      search_endpoint st oracle req = (.error ⟨422, msg⟩, [])) ∧
    (∀ (st : AppState) (oracle : ClientOracle)
        (jsonLoads : String → Except String JsonVal) (form : UploadForm)
        (sj fj cj : Option JsonVal) (req : SearchRequest)
        (cookies : Cookies) (msg : String),
      _parse_optional_json jsonLoads form.sources "sources" = .ok sj →
      _parse_optional_json jsonLoads form.follow_up "follow_up" = .ok fj →
      _parse_optional_json jsonLoads form.cookies "cookies" = .ok cj →
      buildUploadRequest form sj fj cj = .ok req →
      _resolve_cookies st req.cookies = .ok cookies →
      runSearchValidation req
        ((buildUploadMap form.files).map (fun p => (p.1, FileValue.bytes p.2)))
        (!cookies.isEmpty) = .error msg →
      upload_endpoint st oracle jsonLoads form = (.error ⟨422, msg⟩, [])) := by
  refine ⟨?_, ?_, ?_, ?_⟩
  · intro mode model sources own h
    unfold validate_search_params
    rw [if_pos h]
  · intro mode model s own h1 h2
    unfold validate_search_params
    rw [if_neg (not_not_intro h1)]
    have h2' : s ∉ SEARCH_SOURCES := by simpa using h2
    simp [List.find?, h2']
  · intro st oracle req cookies msg hres hval
    simp [search_endpoint, hres, _run_search, hval]
  · intro st oracle jsonLoads form sj fj cj req cookies msg hs hf hc hb hres hval
    simp [upload_endpoint, hs, hf, hc, hb, hres, _run_search, hval, relayRunResult]

/-- Claim C3 witness: an out-of-table mode is named in the message, the
`/v1/search` handler answers 422 with it, and the client trace is empty. -/
theorem c3_validation_maps_to_422_witness :
    validate_search_params "bogus" none ["web"] false =
      .error "Invalid mode: bogus" ∧
    validate_search_params "auto" none ["webz"] false =
      .error "Invalid source: webz" ∧
    search_endpoint ⟨none, [], [], some "key"⟩ (fun _ _ => .ok .null)
      { query := "hi", mode := "bogus" } =
      (.error ⟨422, "Invalid mode: bogus"⟩, []) := by
  have h := c3_validation_maps_to_422
  exact ⟨h.1 "bogus" none ["web"] false (by decide),
    h.2.1 "auto" none "webz" false (by decide) (by decide),
    h.2.2.1 ⟨none, [], [], some "key"⟩ (fun _ _ => .ok .null)
      { query := "hi", mode := "bogus" } [] "Invalid mode: bogus" rfl rfl⟩

/-- Claim C4: when the external client raises on `/v1/search` or
`/v1/search/upload`, an assertion-style failure maps to HTTP 400 carrying
the assertion message, any other non-HTTP exception to HTTP 500 with
"Search failed: " plus the raw error text. -/
theorem c4_client_exception_mapping :
    (∀ (st : AppState) (oracle : ClientOracle) (req : SearchRequest)
        (cookies : Cookies) (q m : String),
      _resolve_cookies st req.cookies = .ok cookies →
      runSearchValidation req
        ((req.files.getD []).map (fun p => (p.1, FileValue.str p.2)))
        (!cookies.isEmpty) = .ok q →
      (∀ b a, oracle b a = .assertErr m) →
      (search_endpoint st oracle req).1 = .error ⟨400, m⟩) ∧
    (∀ (st : AppState) (oracle : ClientOracle) (req : SearchRequest)
        (cookies : Cookies) (q m : String),
      _resolve_cookies st req.cookies = .ok cookies →
      runSearchValidation req
        ((req.files.getD []).map (fun p => (p.1, FileValue.str p.2)))
        (!cookies.isEmpty) = .ok q →
      (∀ b a, oracle b a = .otherErr m) →
      (search_endpoint st oracle req).1 = .error ⟨500, "Search failed: " ++ m⟩) ∧
    (∀ (st : AppState) (oracle : ClientOracle)
        (jsonLoads : String → Except String JsonVal) (form : UploadForm)
        (sj fj cj : Option JsonVal) (req : SearchRequest)
        (cookies : Cookies) (q m : String),
      _parse_optional_json jsonLoads form.sources "sources" = .ok sj →
      _parse_optional_json jsonLoads form.follow_up "follow_up" = .ok fj →
      _parse_optional_json jsonLoads form.cookies "cookies" = .ok cj →
      buildUploadRequest form sj fj cj = .ok req →
      _resolve_cookies st req.cookies = .ok cookies →
      runSearchValidation req
        ((buildUploadMap form.files).map (fun p => (p.1, FileValue.bytes p.2)))
        (!cookies.isEmpty) = .ok q →
      (∀ b a, oracle b a = .assertErr m) →
      (upload_endpoint st oracle jsonLoads form).1 = .error ⟨400, m⟩) ∧
    (∀ (st : AppState) (oracle : ClientOracle)
        (jsonLoads : String → Except String JsonVal) (form : UploadForm)
        (sj fj cj : Option JsonVal) (req : SearchRequest)
        (cookies : Cookies) (q m : String),
      _parse_optional_json jsonLoads form.sources "sources" = .ok sj →
      _parse_optional_json jsonLoads form.follow_up "follow_up" = .ok fj →
      _parse_optional_json jsonLoads form.cookies "cookies" = .ok cj →
      buildUploadRequest form sj fj cj = .ok req →
      _resolve_cookies st req.cookies = .ok cookies →
      runSearchValidation req
        ((buildUploadMap form.files).map (fun p => (p.1, FileValue.bytes p.2)))
        (!cookies.isEmpty) = .ok q →
      (∀ b a, oracle b a = .otherErr m) →
      (upload_endpoint st oracle jsonLoads form).1 =
        .error ⟨500, "Search failed: " ++ m⟩) := by
  refine ⟨?_, ?_, ?_, ?_⟩
  · intro st oracle req cookies q m hres hval horacle
    cases hs : req.stream <;>
      simp [search_endpoint, hres, _run_search, hval, hs, horacle]
  · intro st oracle req cookies q m hres hval horacle
    cases hs : req.stream <;>
      simp [search_endpoint, hres, _run_search, hval, hs, horacle]
  · intro st oracle jsonLoads form sj fj cj req cookies q m h1 h2 h3 hb hres hval horacle
    cases hs : req.stream <;>
      simp [upload_endpoint, h1, h2, h3, hb, hres, _run_search, hval, hs,
        horacle, relayRunResult]
  · intro st oracle jsonLoads form sj fj cj req cookies q m h1 h2 h3 hb hres hval horacle
    cases hs : req.stream <;>
      simp [upload_endpoint, h1, h2, h3, hb, hres, _run_search, hval, hs,
        horacle, relayRunResult]

/-- Claim C4 witness: an asserting client gives 400 with the assertion
message; any other exception gives 500 with the wrapped raw text. -/
theorem c4_client_exception_mapping_witness :
    (search_endpoint ⟨none, [("c", "1")], [], some "key"⟩
      (fun _ _ => .assertErr "File too large") { query := "hi" }).1 =
      .error ⟨400, "File too large"⟩ ∧
    (search_endpoint ⟨none, [("c", "1")], [], some "key"⟩
      (fun _ _ => .otherErr "boom") { query := "hi" }).1 =
      .error ⟨500, "Search failed: boom"⟩ := by
  have h := c4_client_exception_mapping
  exact ⟨h.1 ⟨none, [("c", "1")], [], some "key"⟩ _ { query := "hi" }
      [("c", "1")] "hi" "File too large" rfl rfl (fun _ _ => rfl),
    h.2.1 ⟨none, [("c", "1")], [], some "key"⟩ _ { query := "hi" }
      [("c", "1")] "hi" "boom" rfl rfl (fun _ _ => rfl)⟩

/-- Claim C5: a malformed or non-object `PPLX_COOKIES` value does not
crash module load — the error is captured into the state — and it
surfaces as HTTP 500 with the descriptive message exactly on a search
request that needs the default cookies (no per-request override), while
routes that do not need them are unaffected. -/
theorem c5_env_cookie_error_deferred
    (jsonLoads : String → Except String JsonVal) (env : Env) (raw : String)
    (hraw : env.pplx_cookies = some raw) (hne : raw ≠ "")
    (hbad : ∀ fields, jsonLoads raw ≠ .ok (.obj fields)) :
    (moduleInit jsonLoads env).ENV_COOKIES_ERROR =
      some (envCookiesMessage jsonLoads raw) ∧
    (moduleInit jsonLoads env).DEFAULT_COOKIES = [] ∧
    (∀ (oracle : ClientOracle) (req : SearchRequest), req.cookies = none →
      search_endpoint (moduleInit jsonLoads env) oracle req =
        (.error ⟨500, envCookiesMessage jsonLoads raw⟩, [])) ∧
    route_health = (.json 200 (.obj [("status", .str "ok")]), []) ∧
    (∀ (x auth : Option String) (key : String),
      env.pplx_api_key = some key → key ≠ "" →
      suppliedCredential x auth = some key →
      route_usage (moduleInit jsonLoads env) x auth =
        (usage_endpoint (moduleInit jsonLoads env), [])) := by
  have hstate : (moduleInit jsonLoads env).ENV_COOKIES_ERROR =
      some (envCookiesMessage jsonLoads raw) ∧
      (moduleInit jsonLoads env).DEFAULT_COOKIES = [] := by
    simp only [moduleInit, _load_json_env, envCookiesMessage, hraw, if_neg hne]
    cases hj : jsonLoads raw with
    | error e => exact ⟨rfl, rfl⟩
    | ok v =>
      cases v with
      | obj fields => exact absurd hj (hbad fields)
      | null => exact ⟨rfl, rfl⟩
      | bool b => exact ⟨rfl, rfl⟩
      | num n => exact ⟨rfl, rfl⟩
      | str s => exact ⟨rfl, rfl⟩
      | arr xs => exact ⟨rfl, rfl⟩
  refine ⟨hstate.1, hstate.2, ?_, rfl, ?_⟩
  · intro oracle req hck
    simp [search_endpoint, _resolve_cookies, hck, hstate.1]
  · intro x auth key hkey hkeyne hsupp
    simp [route_usage, require_api_key, moduleInit, hkey, hkeyne, hsupp]

/-- Claim C5 witness: with `PPLX_COOKIES` set to text the parser rejects,
the module captures the message at import, a no-override search gets the
deferred 500, and `/health` still answers normally. -/
theorem c5_env_cookie_error_deferred_witness :
    (moduleInit (fun _ => .error "boom") ⟨some "notjson", none, some "key"⟩).ENV_COOKIES_ERROR
      = some "PPLX_COOKIES must be valid JSON: boom" ∧
    search_endpoint (moduleInit (fun _ => .error "boom") ⟨some "notjson", none, some "key"⟩)
      (fun _ _ => .ok .null) { query := "hi" } =
      (.error ⟨500, "PPLX_COOKIES must be valid JSON: boom"⟩, []) ∧
    route_health = (.json 200 (.obj [("status", .str "ok")]), []) := by
  have h := c5_env_cookie_error_deferred (fun _ => .error "boom")
    ⟨some "notjson", none, some "key"⟩ "notjson" rfl (by decide)
    (fun fields hcontra => Except.noConfusion hcontra)
  exact ⟨h.1, h.2.2.1 (fun _ _ => .ok .null) { query := "hi" } rfl, h.2.2.2.1⟩

/-- Claim C8: a non-streaming request that passes validation and whose
client call returns `r` without raising is answered with HTTP 200 and
body exactly `{"data": r}`. -/
theorem c8_nonstream_success (st : AppState) (oracle : ClientOracle)
    (req : SearchRequest) (cookies : Cookies) (q : String) (r : JsonVal)
    (hres : _resolve_cookies st req.cookies = .ok cookies)
    (hval : runSearchValidation req
      ((req.files.getD []).map (fun p => (p.1, FileValue.str p.2)))
      (!cookies.isEmpty) = .ok q)
    (hstream : req.stream = false)
    (horacle : ∀ a, oracle false a = .ok r) :
    (search_endpoint st oracle req).1 = .json 200 (.obj [("data", r)]) := by
  simp [search_endpoint, hres, _run_search, hval, hstream, horacle]

/-- Claim C8 witness. -/
theorem c8_nonstream_success_witness :
    (search_endpoint ⟨none, [("c", "1")], [], some "key"⟩
      (fun _ _ => .ok (.str "answer")) { query := "hi" }).1 =
      .json 200 (.obj [("data", .str "answer")]) :=
  c8_nonstream_success ⟨none, [("c", "1")], [], some "key"⟩
    (fun _ _ => .ok (.str "answer")) { query := "hi" }
    [("c", "1")] "hi" (.str "answer") rfl rfl rfl (fun _ => rfl)

end PplxApi
